import Mathlib

/-!
Shallow embedding of the Firecracker Terraform provider
(repository avkcode/terraform-provider-firecracker, package firecracker).

The embedded code lives in two files:
  * client.go      — FirecrackerClient with CreateVM, GetVM, DeleteVM and the
                     putComponent / getComponent / listComponents helpers;
  * resource_vm.go — the Terraform resource lifecycle functions
                     resourceFirecrackerVMCreate / Read / Delete.

Go map[string]interface{} JSON payloads are modelled by the JVal type below;
association lists stand for Go maps (all payload maps in the source are built
with distinct literal keys).  HTTP transport is modelled by oracle functions:
a PUT transport says for each request whether putComponent succeeded (2xx) or
failed (connection error or non-2xx status), and GET endpoints are given their
ConnResult (connection failure, or a status code with a body).
-/

/-- A JSON value, as produced by encoding/json.Marshal on the dynamic
map[string]interface{} payloads of client.go. -/
inductive JVal where
  | jNull : JVal
  | jBool : Bool → JVal
  | jInt : Int → JVal
  | jStr : String → JVal
  | jArr : List JVal → JVal
  | jObj : List (String × JVal) → JVal

/-- Lookup of a key in a JSON object body (Go map indexing). -/
def jLookup (k : String) (l : List (String × JVal)) : Option JVal :=
  (l.find? (fun p => p.1 == k)).map (fun p => p.2)

/-- Go map assignment m[k] = v on an association list whose keys are unique:
the entry for k is replaced in place. -/
def setKey (l : List (String × JVal)) (k : String) (v : JVal) : List (String × JVal) :=
  l.map (fun p => if p.1 == k then (k, v) else p)

/-- A dynamically typed Go value as it sits in a drive configuration map
before coercion: a string, a bool, or a value of any other type. -/
inductive GoDyn where
  | gStr : String → GoDyn
  | gBool : Bool → GoDyn
  | gOther : GoDyn

/-- The boolean coercion used throughout CreateVM (client.go lines 89-97,
117-127, 150-158, 179-197): an absent field is false, a string field is
compared with the literal "true", a bool field is taken as is, and a field of
any other type is false. -/
def dynIsTrue : Option GoDyn → Bool
  | some (.gStr s) => s == "true"
  | some (.gBool b) => b
  | _ => false

/-- One entry of config["drives"] as CreateVM reads it: a map with a string
drive_id (read through an unchecked type assertion in the second pass,
client.go line 165), a pass-through path_on_host value, and dynamically typed
is_root_device / is_read_only fields (absent = none). -/
structure CDrive where
  drive_id : String
  path_on_host : JVal
  is_root_device : Option GoDyn
  is_read_only : Option GoDyn

/-- The read-only coercion of the second (non-root) drive pass: client.go
lines 169-171 first insert the default boolean false when the key is absent,
then lines 190-197 coerce string/bool/other to a strict boolean. -/
def drive2ReadOnly (d : CDrive) : Bool :=
  let v : Option GoDyn :=
    match d.is_read_only with
    | none => some (.gBool false)
    | some x => some x
  match v with
  | some (.gStr s) => s == "true"
  | some (.gBool b) => b
  | _ => false

/-- The Firecracker API endpoints CreateVM writes to, one per fmt.Sprintf
URL in client.go. -/
inductive Endpoint where
  | machineConfig
  | bootSource
  | drive (id : String)
  | networkInterface (id : String)
  | actions
deriving DecidableEq, Repr

/-- The path appended to c.BaseURL for each endpoint, following the
fmt.Sprintf format strings of client.go (lines 59, 75, 106, 166, 244, 260). -/
def endpointPath : Endpoint → String
  | .machineConfig => "/machine-config"
  | .bootSource => "/boot-source"
  | .drive id => "/drives/" ++ id
  | .networkInterface id => "/network-interfaces/" ++ id
  | .actions => "/actions"

/-- One PUT request issued through putComponent: target endpoint and JSON
payload. -/
structure PutRequest where
  endpoint : Endpoint
  payload : JVal

/-- Whether a request configures a drive (its URL is BaseURL/drives/...). -/
def isDriveReq (r : PutRequest) : Bool :=
  match r.endpoint with
  | .drive _ => true
  | _ => false

/-- The apiDriveConfig map built for a root-flagged drive in the first pass
of CreateVM (client.go lines 104-127): the drive id is forced to "rootfs",
is_root_device is the literal boolean true, and is_read_only is the coerced
boolean. -/
def rootDrivePayload (d : CDrive) : List (String × JVal) :=
  [("drive_id", .jStr "rootfs"),
   ("path_on_host", d.path_on_host),
   ("is_root_device", .jBool true),
   ("is_read_only", .jBool (dynIsTrue d.is_read_only))]

/-- The apiDriveConfig map built for a drive in the second pass of CreateVM
(client.go lines 165-203): declared drive id, pass-through path, coerced
booleans, and the line 200-203 rewrite of drive_id to "rootfs" when the
coerced root flag is true (unreachable there, since root drives are skipped
by the second pass, but embedded faithfully). -/
def nonRootDrivePayload (d : CDrive) : List (String × JVal) :=
  let isRoot := dynIsTrue d.is_root_device
  let base : List (String × JVal) :=
    [("drive_id", .jStr d.drive_id),
     ("path_on_host", d.path_on_host),
     ("is_root_device", .jBool isRoot),
     ("is_read_only", .jBool (drive2ReadOnly d))]
  if isRoot then setKey base "drive_id" (.jStr "rootfs") else base

/-- The first-pass PUT for a root-flagged drive: URL BaseURL/drives/rootfs
(client.go lines 105-106, 135). -/
def mkRootDriveReq (d : CDrive) : PutRequest :=
  { endpoint := .drive "rootfs", payload := .jObj (rootDrivePayload d) }

/-- The second-pass PUT for a non-root drive: URL BaseURL/drives/{declared id}
(client.go lines 165-166, 224). -/
def mkNonRootDriveReq (d : CDrive) : PutRequest :=
  { endpoint := .drive d.drive_id, payload := .jObj (nonRootDrivePayload d) }

/-- The PUT for one network interface: the iface map is sent as is to
BaseURL/network-interfaces/{iface_id} (client.go lines 243-247). -/
def mkIfaceReq (i : String × List (String × JVal)) : PutRequest :=
  { endpoint := .networkInterface i.1, payload := .jObj i.2 }

/-- The two drive passes of CreateVM (client.go lines 82-232): first every
drive whose is_root_device coerces to true, in input order, then every other
drive, in input order.  The continue statements of the two loops are exactly
these two filters. -/
def drivesSequence (ds : List CDrive) : List PutRequest :=
  (ds.filter (fun d => dynIsTrue d.is_root_device)).map mkRootDriveReq
    ++ (ds.filter (fun d => !dynIsTrue d.is_root_device)).map mkNonRootDriveReq

/-- The config map passed to CreateVM, with each optional component present
exactly when the corresponding type assertion in client.go succeeds
(config["machine-config"].(map...), config["boot-source"].(map...),
config["drives"].([]...), config["network-interfaces"].([]...)).
The "vm-id" key of the map is never read by CreateVM and is omitted. -/
structure CreateConfig where
  machineConfig : Option (List (String × JVal))
  bootSource : Option (List (String × JVal))
  drives : Option (List CDrive)
  networkInterfaces : Option (List (String × List (String × JVal)))

/-- The linear sequence of PUT requests CreateVM attempts when every call
succeeds, in source order (client.go lines 50-270): machine-config first
(lines 57-63); then, only when a drives list is present, boot-source
(lines 73-80) followed by the two drive passes (lines 82-232); then the
network interfaces in input order (lines 236-249); finally the
InstanceStart action (lines 259-266). -/
def createVMSequence (config : CreateConfig) : List PutRequest :=
  (match config.machineConfig with
   | some mc => [{ endpoint := .machineConfig, payload := .jObj mc }]
   | none => [])
  ++ (match config.drives with
      | some ds =>
        (match config.bootSource with
         | some bs => [{ endpoint := .bootSource, payload := .jObj bs }]
         | none => [])
        ++ drivesSequence ds
      | none => [])
  ++ (match config.networkInterfaces with
      | some is => is.map mkIfaceReq
      | none => [])
  ++ [{ endpoint := .actions, payload := .jObj [("action_type", .jStr "InstanceStart")] }]

/-- Run a sequence of putComponent calls against a transport oracle
(T r = true means the PUT got a 200/204 answer): requests are attempted in
order, the run stops at the first failure, and the attempted requests are
returned together with the overall success flag. -/
def runPuts (T : PutRequest → Bool) : List PutRequest → List PutRequest × Bool
  | [] => ([], true)
  | r :: rs =>
    if T r then
      let p := runPuts T rs
      (r :: p.1, p.2)
    else ([r], false)

/-- CreateVM (client.go lines 50-270): attempt the request sequence in order
against the transport, aborting at the first failing putComponent; the first
component is the trace of requests sent, the second is true exactly when the
whole sequence succeeded and CreateVM returned nil. -/
def CreateVM (T : PutRequest → Bool) (config : CreateConfig) : List PutRequest × Bool :=
  runPuts T (createVMSequence config)

/-- The single PUT that CreateVM emits for a given drive: through the first
pass when its root flag coerces to true, through the second pass otherwise. -/
def drivePutFor (d : CDrive) : PutRequest :=
  if dynIsTrue d.is_root_device then mkRootDriveReq d else mkNonRootDriveReq d

/-- The payload of the PUT that CreateVM emits for a given drive. -/
def drivePayloadFor (d : CDrive) : List (String × JVal) :=
  if dynIsTrue d.is_root_device then rootDrivePayload d else nonRootDrivePayload d

/-!
Boot-argument normalization (resource_vm.go lines 168-180).  Go strings are
modelled as lists of characters; strings.Contains and the n = 1 call
strings.Replace(s, old, new, 1) are embedded below for the non-empty search
tokens used at this call site.
-/

/-- strings.Contains(s, sub): sub occurs as a contiguous substring of s. -/
def containsSub (sub : List Char) : List Char → Bool
  | [] => sub.isPrefixOf []
  | c :: t => sub.isPrefixOf (c :: t) || containsSub sub t

/-- strings.Replace(s, old, new, 1) for a non-empty old: the first, leftmost
occurrence of old in s is replaced by new; s is returned unchanged when old
does not occur. -/
def replaceFirst (old new : List Char) : List Char → List Char
  | [] => []
  | c :: t =>
    if old.isPrefixOf (c :: t) then new ++ (c :: t).drop old.length
    else c :: replaceFirst old new t

/-- The token "root=PARTUUID=" tested on line 172 of resource_vm.go. -/
def rootPartuuidTok : List Char := "root=PARTUUID=".data

/-- The token "root=/dev/vda" tested on line 174 of resource_vm.go. -/
def rootDevVdaTok : List Char := "root=/dev/vda".data

/-- The replacement token "root=PARTUUID=rootfs" of lines 175 and 178. -/
def rootPartuuidRootfsTok : List Char := "root=PARTUUID=rootfs".data

/-- The boot_args rewrite of resourceFirecrackerVMCreate (resource_vm.go
lines 171-180): leave the string alone when it already contains
root=PARTUUID=; otherwise replace the first root=/dev/vda with
root=PARTUUID=rootfs when present; otherwise append a space and
root=PARTUUID=rootfs. -/
def normalizeBootArgs (s : List Char) : List Char :=
  if containsSub rootPartuuidTok s then s
  else if containsSub rootDevVdaTok s then
    replaceFirst rootDevVdaTok rootPartuuidRootfsTok s
  else s ++ (' ' :: rootPartuuidRootfsTok)

/-- The same rewrite on Go string values. -/
def normalizeBootArgsStr (s : String) : String :=
  ⟨normalizeBootArgs s.data⟩

/-!
The Terraform resource layer (resource_vm.go).  The schema types drives and
interfaces strictly (drive_id, path_on_host strings; is_root_device,
is_read_only booleans), so the values read through d.Get are modelled by the
typed records below.
-/

/-- One drives block of the resource schema (resource_vm.go lines 38-70). -/
structure RDrive where
  drive_id : String
  path_on_host : String
  is_root_device : Bool
  is_read_only : Bool

/-- The machine_config block (resource_vm.go lines 71-92). -/
structure MachineCfg where
  vcpu_count : Int
  mem_size_mib : Int

/-- One network_interfaces block (resource_vm.go lines 93-119); guest_mac is
optional and its schema zero value is the empty string. -/
structure RIface where
  iface_id : String
  host_dev_name : String
  guest_mac : String

/-- The firecracker_vm resource arguments as read by
resourceFirecrackerVMCreate through d.Get. -/
structure VMSpec where
  kernel_image_path : String
  boot_args : String
  drives : List RDrive
  machine_config : MachineCfg
  network_interfaces : List RIface

/-- The local Terraform record of the resource: the tracked id (d.Id();
the empty string means no resource is tracked in state). -/
structure LocalState where
  id : String

/-- The payload map resourceFirecrackerVMCreate builds and hands to
client.CreateVM (resource_vm.go lines 182-266): the boot source with the
normalized boot_args, the drives with their schema booleans, the machine
config, and the network interfaces with guest_mac included only when it is a
non-empty string.  The extra "vm-id" key of the Go payload is never read by
CreateVM and is omitted from the model. -/
def resourceCreatePayload (spec : VMSpec) : CreateConfig :=
  { machineConfig := some
      [("vcpu_count", .jInt spec.machine_config.vcpu_count),
       ("mem_size_mib", .jInt spec.machine_config.mem_size_mib)]
  , bootSource := some
      [("kernel_image_path", .jStr spec.kernel_image_path),
       ("boot_args", .jStr (normalizeBootArgsStr spec.boot_args))]
  , drives := some (spec.drives.map (fun d =>
      { drive_id := d.drive_id
      , path_on_host := .jStr d.path_on_host
      , is_root_device := some (.gBool d.is_root_device)
      , is_read_only := some (.gBool d.is_read_only) }))
  , networkInterfaces := some (spec.network_interfaces.map (fun i =>
      (i.iface_id,
        [("iface_id", .jStr i.iface_id),
         ("host_dev_name", .jStr i.host_dev_name)]
        ++ (if i.guest_mac ≠ "" then [("guest_mac", .jStr i.guest_mac)] else [])))) }

/-- resourceFirecrackerVMCreate (resource_vm.go lines 157-280) up to the
final Read call: a fresh id vmID is generated and stored with d.SetId
(lines 161-162), the payload is built, and client.CreateVM is run.  The
result is the local state at that point, the trace of PUT requests attempted,
and the success flag; when CreateVM fails the function returns the error
diagnostic with the state unchanged — it does not call d.SetId("") — and on
success resourceFirecrackerVMRead follows (modelled separately). -/
def resourceFirecrackerVMCreate (vmID : String) (spec : VMSpec)
    (T : PutRequest → Bool) : LocalState × List PutRequest × Bool :=
  let st : LocalState := { id := vmID }
  let r := CreateVM T (resourceCreatePayload spec)
  (st, r.1, r.2)

/-!
The read side (client.go GetVM and resource_vm.go Read) and the delete side
(client.go DeleteVM and resource_vm.go Delete).
-/

/-- An HTTP response body: either raw non-JSON bytes or a JSON document. -/
inductive HttpBody where
  | text (s : String)
  | json (v : JVal)

/-- The Go test string(body) != "" (client.go line 516).  A JSON document
never serializes to the empty byte string. -/
def bodyNonempty : HttpBody → Bool
  | .text s => !s.isEmpty
  | .json _ => true

/-- json.Unmarshal of a body into map[string]interface{}: succeeds exactly
when the body is a JSON object. -/
def parseMap : HttpBody → Option (List (String × JVal))
  | .json (.jObj m) => some m
  | _ => none

/-- The outcome of one GET to the control API: the connection failed, or a
status code with a body arrived. -/
inductive ConnResult where
  | connFail
  | resp (status : Nat) (body : HttpBody)

/-- getComponent (client.go lines 550-587): a connection failure is an
error; 404 yields a nil map with no error; any other non-200 status is an
error except 400, which yields an empty map; a 200 body is parsed and a
parse failure is an error. -/
def getComponent (r : ConnResult) : Except String (Option (List (String × JVal))) :=
  match r with
  | .connFail => .error "failed to send request"
  | .resp status body =>
    if status = 404 then .ok none
    else if status ≠ 200 then
      if status = 400 then .ok (some []) else .error "API error"
    else
      match parseMap body with
      | some m => .ok (some m)
      | none => .error "failed to parse response"

/-- The map GetVM returns for an existing VM: the vm-id it was called with,
the machine-config map, the boot-source map (none models the Go nil map
stored when getComponent reports 404), and the drives and
network-interfaces lists (always empty, client.go listComponents
lines 590-596). -/
structure VMInfo where
  vmId : String
  machineConfig : List (String × JVal)
  bootSource : Option (List (String × JVal))
  drives : List JVal
  networkInterfaces : List JVal

/-- GetVM (client.go lines 422-547), probing GET /machine-config with
outcome mcResp and GET /boot-source with outcome bsResp: a connection
failure on the probe reports the VM absent with no error (lines 447-455);
a 200 answer parses the machine config (parse failure is an error) and
merges the best-effort boot-source (falling back to an empty map when
getComponent errors, lines 472-478) with empty drive and interface lists;
a 400 answer with a non-empty body fabricates machine-config
{vcpu_count 4, mem_size_mib 1024} with empty components (lines 514-543);
anything else is an error (line 546). -/
def GetVM (vmID : String) (mcResp bsResp : ConnResult) :
    Except String (Option VMInfo) :=
  match mcResp with
  | .connFail => .ok none
  | .resp status body =>
    if status = 200 then
      match parseMap body with
      | none => .error "failed to parse machine config"
      | some mc =>
        let bootSource :=
          match getComponent bsResp with
          | .error _ => some []
          | .ok v => v
        .ok (some { vmId := vmID, machineConfig := mc, bootSource := bootSource,
                    drives := [], networkInterfaces := [] })
    else if status = 400 then
      if bodyNonempty body then
        .ok (some { vmId := vmID,
                    machineConfig := [("vcpu_count", .jInt 4), ("mem_size_mib", .jInt 1024)],
                    bootSource := some [], drives := [], networkInterfaces := [] })
      else .error "unexpected response"
    else .error "unexpected response"

/-- resourceFirecrackerVMRead (resource_vm.go lines 282-372) restricted to
its effect on the tracked id: a GetVM error is surfaced as a diagnostic with
the state unchanged; a nil result removes the record with d.SetId("") and no
error; an existing VM keeps the id (d.SetId(vmID)) and mirrors the reported
fields into state attributes, which are outside this local-state model.  The
boolean is true exactly when an error diagnostic is returned. -/
def resourceFirecrackerVMRead (st : LocalState)
    (fetch : Except String (Option VMInfo)) : LocalState × Bool :=
  match fetch with
  | .error _ => (st, true)
  | .ok none => ({ id := "" }, false)
  | .ok (some _) => ({ id := st.id }, false)

/-- DeleteVM (client.go lines 603-665), given the outcome of the
PUT /actions SendCtrlAltDel shutdown attempt: a connection failure is
treated as the VM already being gone (lines 633-641) and any status answer,
success or not, is accepted best-effort (lines 644-654); the function
returns nil — no error — in every case. -/
def DeleteVM (shutdownResp : ConnResult) : Option String :=
  match shutdownResp with
  | .connFail => none
  | .resp _ _ => none

/-- resourceFirecrackerVMDelete (resource_vm.go lines 434-454): a DeleteVM
error would be surfaced with the state unchanged; otherwise the record is
cleared with d.SetId("") and no error is returned. -/
def resourceFirecrackerVMDelete (st : LocalState) (shutdownResp : ConnResult) :
    LocalState × Bool :=
  match DeleteVM shutdownResp with
  | some _ => (st, true)
  | none => ({ id := "" }, false)

/-! Helper lemmas about the Go string primitives. -/

theorem isPrefixOf_iff_exists : ∀ (p s : List Char), p.isPrefixOf s = true ↔ ∃ t, s = p ++ t := by
  intro p
  induction p with
  | nil =>
    intro s
    simp [List.isPrefixOf]
  | cons a as ih =>
    intro s
    cases s with
    | nil =>
      simp [List.isPrefixOf]
    | cons b bs =>
      simp only [List.isPrefixOf, Bool.and_eq_true, beq_iff_eq, ih bs, List.cons_append,
        List.cons.injEq]
      constructor
      · rintro ⟨hab, t, ht⟩
        exact ⟨t, hab.symm, ht⟩
      · rintro ⟨t, hba, ht⟩
        exact ⟨hba.symm, t, ht⟩

theorem isPrefixOf_append_self (p t : List Char) : p.isPrefixOf (p ++ t) = true :=
  (isPrefixOf_iff_exists p (p ++ t)).mpr ⟨t, rfl⟩

theorem containsSub_of_isPrefixOf {p s : List Char} (h : p.isPrefixOf s = true) :
    containsSub p s = true := by
  cases s with
  | nil => simpa [containsSub] using h
  | cons c t => simp [containsSub, h]

theorem containsSub_append_right (p s t : List Char) (h : containsSub p t = true) :
    containsSub p (s ++ t) = true := by
  induction s with
  | nil => simpa using h
  | cons c s ih =>
    simp only [List.cons_append, containsSub, Bool.or_eq_true]
    exact Or.inr ih

theorem containsSub_self_append (p t : List Char) : containsSub p (p ++ t) = true :=
  containsSub_of_isPrefixOf (isPrefixOf_append_self p t)

theorem containsSub_cons (p : List Char) (c : Char) {t : List Char}
    (h : containsSub p t = true) : containsSub p (c :: t) = true := by
  simp only [containsSub, Bool.or_eq_true]
  exact Or.inr h

theorem replaceFirst_eq_append (old new : List Char) (hne : old ≠ []) :
    ∀ s, containsSub old s = true →
      ∃ a b, replaceFirst old new s = a ++ new ++ b := by
  intro s
  induction s with
  | nil =>
    intro h
    exact absurd (by simpa [containsSub] using h) hne
  | cons c t ih =>
    intro h
    by_cases hp : old.isPrefixOf (c :: t) = true
    · exact ⟨[], (c :: t).drop old.length, by simp [replaceFirst, hp]⟩
    · have h2 : containsSub old t = true := by
        rcases (show old.isPrefixOf (c :: t) = true ∨ containsSub old t = true by
          simpa [containsSub, Bool.or_eq_true] using h) with h1 | h2
        · exact absurd h1 hp
        · exact h2
      obtain ⟨a, b, hr⟩ := ih h2
      exact ⟨c :: a, b, by simp [replaceFirst, hp, hr]⟩

/-- The replacement token is the tested token followed by "rootfs"; this is
the coupling between the line 172 test and the lines 175/178 rewrites. -/
theorem rootfsTok_eq : rootPartuuidRootfsTok = rootPartuuidTok ++ "rootfs".data := by decide

/-- A string already containing root=PARTUUID= is left alone by the rewrite. -/
theorem normalize_of_contains {x : List Char}
    (h : containsSub rootPartuuidTok x = true) : normalizeBootArgs x = x := by
  unfold normalizeBootArgs
  rw [if_pos h]

/-- Every output of the boot_args rewrite contains root=PARTUUID=. -/
theorem normalize_contains (s : List Char) :
    containsSub rootPartuuidTok (normalizeBootArgs s) = true := by
  unfold normalizeBootArgs
  by_cases h1 : containsSub rootPartuuidTok s = true
  · rw [if_pos h1]
    exact h1
  · rw [if_neg h1]
    by_cases h2 : containsSub rootDevVdaTok s = true
    · rw [if_pos h2]
      obtain ⟨a, b, hr⟩ :=
        replaceFirst_eq_append rootDevVdaTok rootPartuuidRootfsTok (by decide) s h2
      rw [hr, List.append_assoc]
      apply containsSub_append_right
      rw [rootfsTok_eq, List.append_assoc]
      exact containsSub_self_append _ _
    · rw [if_neg h2]
      apply containsSub_append_right
      apply containsSub_cons
      rw [rootfsTok_eq]
      exact containsSub_self_append _ _

theorem normalizeBootArgs_idem (s : List Char) :
    normalizeBootArgs (normalizeBootArgs s) = normalizeBootArgs s :=
  normalize_of_contains (normalize_contains s)

/-! Helper lemmas about the creation sequence. -/

/-- Against a transport on which every PUT succeeds, the whole planned
sequence is sent and the run succeeds. -/
theorem runPuts_all (T : PutRequest → Bool) (h : ∀ r, T r = true) :
    ∀ l, runPuts T l = (l, true) := by
  intro l
  induction l with
  | nil => rfl
  | cons r rs ih => simp [runPuts, h r, ih]

theorem CreateVM_all (T : PutRequest → Bool) (h : ∀ r, T r = true)
    (config : CreateConfig) : CreateVM T config = (createVMSequence config, true) :=
  runPuts_all T h _

theorem filter_map_root (l : List CDrive) :
    (l.map mkRootDriveReq).filter isDriveReq = l.map mkRootDriveReq := by
  induction l with
  | nil => rfl
  | cons d l ih => simp [mkRootDriveReq, isDriveReq, ih]

theorem filter_map_nonroot (l : List CDrive) :
    (l.map mkNonRootDriveReq).filter isDriveReq = l.map mkNonRootDriveReq := by
  induction l with
  | nil => rfl
  | cons d l ih => simp [mkNonRootDriveReq, isDriveReq, ih]

/-- Restricting the full creation sequence to the drive endpoints leaves
exactly the two-pass drive sequence. -/
theorem filter_isDriveReq_sequence (config : CreateConfig) (ds : List CDrive)
    (h : config.drives = some ds) :
    (createVMSequence config).filter isDriveReq = drivesSequence ds := by
  unfold createVMSequence
  rw [h]
  simp only [List.filter_append]
  have hmc : (match config.machineConfig with
      | some mc => [{ endpoint := .machineConfig, payload := .jObj mc : PutRequest }]
      | none => []).filter isDriveReq = [] := by
    cases config.machineConfig <;> simp [isDriveReq]
  have hbs : (match config.bootSource with
      | some bs => [{ endpoint := .bootSource, payload := .jObj bs : PutRequest }]
      | none => []).filter isDriveReq = [] := by
    cases config.bootSource <;> simp [isDriveReq]
  have hni : (match config.networkInterfaces with
      | some is => is.map mkIfaceReq
      | none => []).filter isDriveReq = [] := by
    cases config.networkInterfaces with
    | none => rfl
    | some is =>
      induction is with
      | nil => rfl
      | cons i l ih => simpa [mkIfaceReq, isDriveReq] using ih
  have hds : (drivesSequence ds).filter isDriveReq = drivesSequence ds := by
    unfold drivesSequence
    rw [List.filter_append, filter_map_root, filter_map_nonroot]
  simp [hmc, hbs, hni, hds, isDriveReq, List.filter_append]

/-- resourceFirecrackerVMCreate against a transport on which every PUT
succeeds: the id is set, the full sequence is sent, and the create
succeeds. -/
theorem resourceCreate_all (vmID : String) (spec : VMSpec) (T : PutRequest → Bool)
    (hT : ∀ r, T r = true) :
    resourceFirecrackerVMCreate vmID spec T
      = ({ id := vmID }, createVMSequence (resourceCreatePayload spec), true) := by
  simp only [resourceFirecrackerVMCreate, CreateVM_all T hT]

/-! Concrete fixtures used by counterexamples and witnesses. -/

/-- The root drive of scenario A. -/
def dRootA : CDrive :=
  { drive_id := "rootfs"
  , path_on_host := .jStr "/img/root.ext4"
  , is_root_device := some (.gBool true)
  , is_read_only := some (.gBool false) }

/-- Scenario A of the spec at the CreateVM boundary: one root drive, a
machine config, no network interfaces. -/
def cfgScenA : CreateConfig :=
  { machineConfig := some [("vcpu_count", .jInt 2), ("mem_size_mib", .jInt 1024)]
  , bootSource := some [("kernel_image_path", .jStr "/img/vmlinux"),
      ("boot_args", .jStr "console=ttyS0 root=PARTUUID=rootfs")]
  , drives := some [dRootA]
  , networkInterfaces := some [] }

/-- A non-root drive listed first (scenario B input order). -/
def dData : CDrive :=
  { drive_id := "data1"
  , path_on_host := .jStr "/img/data.ext4"
  , is_root_device := some (.gBool false)
  , is_read_only := some (.gBool false) }

/-- A root drive with a locally-declared id different from rootfs. -/
def dRoot : CDrive :=
  { drive_id := "myroot"
  , path_on_host := .jStr "/img/root.ext4"
  , is_root_device := some (.gBool true)
  , is_read_only := some (.gBool false) }

/-- Scenario B at the CreateVM boundary: the non-root drive precedes the
root drive in input order. -/
def cfgScenB : CreateConfig :=
  { machineConfig := some [("vcpu_count", .jInt 2), ("mem_size_mib", .jInt 1024)]
  , bootSource := some [("kernel_image_path", .jStr "/img/vmlinux"),
      ("boot_args", .jStr "console=ttyS0 root=PARTUUID=rootfs")]
  , drives := some [dData, dRoot]
  , networkInterfaces := some [] }

/-- A drive whose boolean fields arrive as the strings "true" / "false". -/
def dStrFlags : CDrive :=
  { drive_id := "vol1"
  , path_on_host := .jStr "/img/vol1.ext4"
  , is_root_device := some (.gStr "true")
  , is_read_only := some (.gStr "false") }

/-- A config whose only component is the string-flagged drive. -/
def cfgStrFlags : CreateConfig :=
  { machineConfig := none, bootSource := none,
    drives := some [dStrFlags], networkInterfaces := none }

/-- A resource spec whose single drive is not flagged root. -/
def specNoRoot : VMSpec :=
  { kernel_image_path := "/img/vmlinux"
  , boot_args := "quiet"
  , drives := [{ drive_id := "data1"
               , path_on_host := "/img/data.ext4"
               , is_root_device := false
               , is_read_only := false }]
  , machine_config := { vcpu_count := 2, mem_size_mib := 1024 }
  , network_interfaces := [] }

/-- A resource spec with exactly one root drive. -/
def specRootOnly : VMSpec :=
  { kernel_image_path := "/img/vmlinux"
  , boot_args := "quiet"
  , drives := [{ drive_id := "disk0"
               , path_on_host := "/img/root.ext4"
               , is_root_device := true
               , is_read_only := false }]
  , machine_config := { vcpu_count := 2, mem_size_mib := 1024 }
  , network_interfaces := [] }

/-! Claim theorems. -/

/-- C1, counterexample: on the scenario A configuration with a fully
successful transport, CreateVM issues exactly the four PUTs but in the
order machine-config, boot-source, drive, actions — not in the claimed
order boot-source, drive, machine-config, actions. -/
theorem CreateVM_put_order_cx :
    ((CreateVM (fun _ => true) cfgScenA).1.map PutRequest.endpoint
        = [.machineConfig, .bootSource, .drive "rootfs", .actions])
    ∧ ((CreateVM (fun _ => true) cfgScenA).1.map PutRequest.endpoint
        ≠ [.bootSource, .drive "rootfs", .machineConfig, .actions]) :=
  ⟨rfl, by decide⟩

/-- C1, amended: for every configuration with a machine config, a boot
source, exactly one drive which is root-flagged, and no network interfaces,
CreateVM on an all-successful transport issues exactly 4 PUT requests —
machine-config, boot-source, the drive, actions — in that order, and
returns success. -/
theorem CreateVM_scenA_put_order (T : PutRequest → Bool) (config : CreateConfig)
    (mc bs : List (String × JVal)) (d : CDrive)
    (hT : ∀ r, T r = true)
    (hmc : config.machineConfig = some mc)
    (hbs : config.bootSource = some bs)
    (hd : config.drives = some [d])
    (hroot : dynIsTrue d.is_root_device = true)
    (hni : config.networkInterfaces = some []) :
    (CreateVM T config).1.map PutRequest.endpoint
        = [.machineConfig, .bootSource, .drive "rootfs", .actions]
    ∧ (CreateVM T config).2 = true := by
  rw [CreateVM_all T hT]
  refine ⟨?_, rfl⟩
  simp [createVMSequence, hmc, hbs, hd, hni, drivesSequence, hroot, mkRootDriveReq]

/-- C1, witness at the scenario A configuration. -/
theorem CreateVM_scenA_put_order_witness :
    (CreateVM (fun _ => true) cfgScenA).1.map PutRequest.endpoint
        = [.machineConfig, .bootSource, .drive "rootfs", .actions]
    ∧ (CreateVM (fun _ => true) cfgScenA).2 = true :=
  CreateVM_scenA_put_order (fun _ => true) cfgScenA
    [("vcpu_count", .jInt 2), ("mem_size_mib", .jInt 1024)]
    [("kernel_image_path", .jStr "/img/vmlinux"),
     ("boot_args", .jStr "console=ttyS0 root=PARTUUID=rootfs")]
    dRootA (fun _ => rfl) rfl rfl rfl rfl rfl

/-- C2, counterexample: a specification with zero root-flagged drives does
not fail validation — on an all-successful transport the create issues its
four PUT requests (machine-config, boot-source, the drive, actions) and
returns success. -/
theorem create_no_validation_cx :
    (specNoRoot.drives.filter (fun d => d.is_root_device)).length = 0
    ∧ (resourceFirecrackerVMCreate "vm-0" specNoRoot (fun _ => true)).2.1.map
        PutRequest.endpoint
      = [.machineConfig, .bootSource, .drive "data1", .actions]
    ∧ (resourceFirecrackerVMCreate "vm-0" specNoRoot (fun _ => true)).2.2 = true :=
  ⟨rfl, rfl, rfl⟩

/-- C2, amended: the create operation performs no root-drive-count
validation.  For every specification whose drive list does not contain
exactly one root-flagged drive, the create still issues its HTTP requests —
the machine-config PUT is attempted first — and, on an all-successful
transport, returns success rather than a validation error. -/
theorem create_no_validation (vmID : String) (spec : VMSpec) (T : PutRequest → Bool)
    (hT : ∀ r, T r = true)
    (hroot : (spec.drives.filter (fun d => d.is_root_device)).length ≠ 1) :
    ((resourceFirecrackerVMCreate vmID spec T).2.1.map PutRequest.endpoint).head?
        = some .machineConfig
    ∧ (resourceFirecrackerVMCreate vmID spec T).2.2 = true := by
  rw [resourceCreate_all vmID spec T hT]
  exact ⟨rfl, rfl⟩

/-- C2, witness at the zero-root specification. -/
theorem create_no_validation_witness :
    ((resourceFirecrackerVMCreate "vm-1" specNoRoot (fun _ => true)).2.1.map
        PutRequest.endpoint).head?
        = some .machineConfig
    ∧ (resourceFirecrackerVMCreate "vm-1" specNoRoot (fun _ => true)).2.2 = true :=
  create_no_validation "vm-1" specNoRoot (fun _ => true) (fun _ => rfl) (by decide)

/-- C3, counterexample: when every PUT fails, the create fails but the
locally generated id is retained in local state — the state is not cleared
back to the empty id. -/
theorem create_failure_keeps_id_cx :
    (resourceFirecrackerVMCreate "4f5a-uuid" specRootOnly (fun _ => false)).1.id
        = "4f5a-uuid"
    ∧ (resourceFirecrackerVMCreate "4f5a-uuid" specRootOnly (fun _ => false)).2.2 = false
    ∧ ("4f5a-uuid" : String) ≠ "" :=
  ⟨rfl, rfl, by decide⟩

/-- C3, amended: when CreateVM fails, the create operation surfaces the
error but keeps the generated id in local state (d.SetId of the empty
string is never called on the failure path). -/
theorem create_failure_keeps_id (vmID : String) (spec : VMSpec) (T : PutRequest → Bool)
    (hfail : (CreateVM T (resourceCreatePayload spec)).2 = false) :
    (resourceFirecrackerVMCreate vmID spec T).1 = { id := vmID }
    ∧ (resourceFirecrackerVMCreate vmID spec T).2.2 = false :=
  ⟨rfl, hfail⟩

/-- C3, witness at a transport on which every PUT fails. -/
theorem create_failure_keeps_id_witness :
    (resourceFirecrackerVMCreate "w3-uuid" specRootOnly (fun _ => false)).1
        = { id := "w3-uuid" }
    ∧ (resourceFirecrackerVMCreate "w3-uuid" specRootOnly (fun _ => false)).2.2 = false :=
  create_failure_keeps_id "w3-uuid" specRootOnly (fun _ => false) rfl

/-- C4: when the drive list has at least two drives and its unique
root-flagged drive is not first in input order, the drive PUTs of the
creation sequence start with the root drive and continue with the non-root
drives in input order. -/
theorem CreateVM_root_drive_first (T : PutRequest → Bool) (config : CreateConfig)
    (ds : List CDrive) (d : CDrive) (i : Nat)
    (hT : ∀ r, T r = true)
    (hds : config.drives = some ds)
    (hfilter : ds.filter (fun x => dynIsTrue x.is_root_device) = [d])
    (hpos : ds[i]? = some d) (hi : i ≠ 0) (hlen : 2 ≤ ds.length) :
    (CreateVM T config).1.filter isDriveReq
      = mkRootDriveReq d
          :: (ds.filter (fun x => !dynIsTrue x.is_root_device)).map mkNonRootDriveReq := by
  rw [CreateVM_all T hT]
  show (createVMSequence config).filter isDriveReq = _
  rw [filter_isDriveReq_sequence config ds hds]
  unfold drivesSequence
  rw [hfilter]
  rfl

/-- C4, witness at the scenario B drive order (non-root first). -/
theorem CreateVM_root_drive_first_witness :
    (CreateVM (fun _ => true) cfgScenB).1.filter isDriveReq
      = mkRootDriveReq dRoot
          :: (([dData, dRoot] : List CDrive).filter
                (fun x => !dynIsTrue x.is_root_device)).map mkNonRootDriveReq :=
  CreateVM_root_drive_first (fun _ => true) cfgScenB [dData, dRoot] dRoot 1
    (fun _ => rfl) rfl rfl rfl (by decide) (by decide)

/-- C5: every drive whose root flag coerces to true is configured through a
PUT whose request path is /drives/rootfs and whose payload carries
drive_id "rootfs", regardless of the drive_id declared in the
specification. -/
theorem CreateVM_root_canonical_id (config : CreateConfig) (ds : List CDrive)
    (d : CDrive)
    (hds : config.drives = some ds) (hmem : d ∈ ds)
    (hroot : dynIsTrue d.is_root_device = true) :
    mkRootDriveReq d ∈ createVMSequence config
    ∧ (mkRootDriveReq d).endpoint = .drive "rootfs"
    ∧ endpointPath (mkRootDriveReq d).endpoint = "/drives/rootfs"
    ∧ jLookup "drive_id" (rootDrivePayload d) = some (.jStr "rootfs") := by
  refine ⟨?_, rfl, rfl, rfl⟩
  have hm : mkRootDriveReq d ∈ drivesSequence ds := by
    unfold drivesSequence
    exact List.mem_append_left _
      (List.mem_map_of_mem _ (List.mem_filter.mpr ⟨hmem, hroot⟩))
  unfold createVMSequence
  rw [hds]
  simp only [List.mem_append]
  tauto

/-- C5, witness at the root drive declared with id myroot. -/
theorem CreateVM_root_canonical_id_witness :
    mkRootDriveReq dRoot ∈ createVMSequence cfgScenB
    ∧ (mkRootDriveReq dRoot).endpoint = .drive "rootfs"
    ∧ endpointPath (mkRootDriveReq dRoot).endpoint = "/drives/rootfs"
    ∧ jLookup "drive_id" (rootDrivePayload dRoot) = some (.jStr "rootfs") :=
  CreateVM_root_canonical_id cfgScenB [dData, dRoot] dRoot rfl (by simp) rfl

/-- C7: the PUT emitted for any drive carries strict JSON booleans for
is_root_device and is_read_only; when either field arrives as a string, the
string "true" maps to the boolean true and every other string maps to
false. -/
theorem CreateVM_drive_bool_coercion (config : CreateConfig) (ds : List CDrive)
    (d : CDrive) (s : String)
    (hds : config.drives = some ds) (hmem : d ∈ ds) :
    drivePutFor d ∈ createVMSequence config
    ∧ (drivePutFor d).payload = .jObj (drivePayloadFor d)
    ∧ (d.is_root_device = some (.gStr s) →
        jLookup "is_root_device" (drivePayloadFor d) = some (.jBool (s == "true")))
    ∧ (d.is_read_only = some (.gStr s) →
        jLookup "is_read_only" (drivePayloadFor d) = some (.jBool (s == "true"))) := by
  by_cases hr : dynIsTrue d.is_root_device = true
  · have hput : drivePutFor d = mkRootDriveReq d := by simp [drivePutFor, hr]
    have hpd : drivePayloadFor d = rootDrivePayload d := by simp [drivePayloadFor, hr]
    refine ⟨?_, ?_, ?_, ?_⟩
    · rw [hput]
      have hm : mkRootDriveReq d ∈ drivesSequence ds := by
        unfold drivesSequence
        exact List.mem_append_left _
          (List.mem_map_of_mem _ (List.mem_filter.mpr ⟨hmem, hr⟩))
      unfold createVMSequence
      rw [hds]
      simp only [List.mem_append]
      tauto
    · rw [hput, hpd]
      rfl
    · intro hs
      have hs' : (s == "true") = true := by
        rw [hs] at hr
        simpa [dynIsTrue] using hr
      rw [hpd]
      have l1 : jLookup "is_root_device" (rootDrivePayload d) = some (.jBool true) := rfl
      rw [l1, hs']
    · intro hs
      rw [hpd]
      have l2 : jLookup "is_read_only" (rootDrivePayload d)
          = some (.jBool (dynIsTrue d.is_read_only)) := rfl
      rw [l2, hs]
      rfl
  · have hrf : dynIsTrue d.is_root_device = false := by
      revert hr
      cases dynIsTrue d.is_root_device <;> simp
    have hput : drivePutFor d = mkNonRootDriveReq d := by simp [drivePutFor, hrf]
    have hbase : drivePayloadFor d =
        [("drive_id", .jStr d.drive_id),
         ("path_on_host", d.path_on_host),
         ("is_root_device", .jBool (dynIsTrue d.is_root_device)),
         ("is_read_only", .jBool (drive2ReadOnly d))] := by
      simp [drivePayloadFor, nonRootDrivePayload, hrf]
    refine ⟨?_, ?_, ?_, ?_⟩
    · rw [hput]
      have hm : mkNonRootDriveReq d ∈ drivesSequence ds := by
        unfold drivesSequence
        refine List.mem_append_right _
          (List.mem_map_of_mem _ (List.mem_filter.mpr ⟨hmem, ?_⟩))
        simp [hrf]
      unfold createVMSequence
      rw [hds]
      simp only [List.mem_append]
      tauto
    · rw [hput]
      show JVal.jObj (nonRootDrivePayload d) = .jObj (drivePayloadFor d)
      simp [drivePayloadFor, hrf]
    · intro hs
      rw [hbase]
      have l1 : jLookup "is_root_device"
          [("drive_id", .jStr d.drive_id),
           ("path_on_host", d.path_on_host),
           ("is_root_device", .jBool (dynIsTrue d.is_root_device)),
           ("is_read_only", .jBool (drive2ReadOnly d))]
          = some (.jBool (dynIsTrue d.is_root_device)) := rfl
      rw [l1, hs]
      rfl
    · intro hs
      rw [hbase]
      have l2 : jLookup "is_read_only"
          [("drive_id", .jStr d.drive_id),
           ("path_on_host", d.path_on_host),
           ("is_root_device", .jBool (dynIsTrue d.is_root_device)),
           ("is_read_only", .jBool (drive2ReadOnly d))]
          = some (.jBool (drive2ReadOnly d)) := rfl
      rw [l2]
      have : drive2ReadOnly d = (s == "true") := by simp [drive2ReadOnly, hs]
      rw [this]

/-- C7, witness at the string-flagged drive. -/
theorem CreateVM_drive_bool_coercion_witness :
    drivePutFor dStrFlags ∈ createVMSequence cfgStrFlags
    ∧ (drivePutFor dStrFlags).payload = .jObj (drivePayloadFor dStrFlags)
    ∧ (dStrFlags.is_root_device = some (.gStr "false") →
        jLookup "is_root_device" (drivePayloadFor dStrFlags)
          = some (.jBool ("false" == "true")))
    ∧ (dStrFlags.is_read_only = some (.gStr "false") →
        jLookup "is_read_only" (drivePayloadFor dStrFlags)
          = some (.jBool ("false" == "true"))) :=
  CreateVM_drive_bool_coercion cfgStrFlags [dStrFlags] dStrFlags "false" rfl (by simp)

/-- C6: the boot-args normalization of resourceFirecrackerVMCreate is
idempotent — applying it twice to any input string yields the same string
as applying it once. -/
theorem normalizeBootArgsStr_idem (s : String) :
    normalizeBootArgsStr (normalizeBootArgsStr s) = normalizeBootArgsStr s := by
  unfold normalizeBootArgsStr
  exact congrArg String.mk (normalizeBootArgs_idem s.data)

/-- C8: a connection failure on the machine-config probe makes GetVM report
the VM absent with no error, the read operation then drops the local record
without raising an error, and this absent result is distinct from the
populated result returned when the endpoint answers 400 with a non-empty
body. -/
theorem GetVM_connfail_absent (st : LocalState) (bs : ConnResult) (vmID : String)
    (body : HttpBody) :
    GetVM vmID .connFail bs = .ok none
    ∧ resourceFirecrackerVMRead st (GetVM st.id .connFail bs) = ({ id := "" }, false)
    ∧ (bodyNonempty body = true →
        ∃ info, GetVM vmID (.resp 400 body) bs = .ok (some info)) := by
  refine ⟨rfl, rfl, fun h => ⟨
    { vmId := vmID
    , machineConfig := [("vcpu_count", .jInt 4), ("mem_size_mib", .jInt 1024)]
    , bootSource := some [], drives := [], networkInterfaces := [] }, ?_⟩⟩
  simp [GetVM, h]

/-- C8, witness at a concrete state, transport outcome, and body. -/
theorem GetVM_connfail_absent_witness :
    GetVM "vm-7" .connFail .connFail = .ok none
    ∧ resourceFirecrackerVMRead { id := "vm-7" } (GetVM ({ id := "vm-7" : LocalState }).id .connFail .connFail)
        = ({ id := "" }, false)
    ∧ (bodyNonempty (.text "Invalid request method") = true →
        ∃ info, GetVM "vm-7" (.resp 400 (.text "Invalid request method")) .connFail
          = .ok (some info)) :=
  GetVM_connfail_absent { id := "vm-7" } .connFail "vm-7" (.text "Invalid request method")

/-- C9: DeleteVM returns success for every remote outcome — connection
failure, any status answer including not-found, and a success
acknowledgement — and the delete operation always clears the local record
without error. -/
theorem DeleteVM_always_success (st : LocalState) (r : ConnResult) :
    DeleteVM r = none
    ∧ resourceFirecrackerVMDelete st r = ({ id := "" }, false) := by
  cases r <;> exact ⟨rfl, rfl⟩

/-- C10: when the machine-config probe answers 400 with a non-empty body,
GetVM returns a populated result whose machine-config holds the fixed
fabricated values vcpu_count 4 and mem_size_mib 1024 together with empty
boot-source, drives and network-interfaces. -/
theorem GetVM_badrequest_fabricated (vmID : String) (body : HttpBody) (bs : ConnResult)
    (h : bodyNonempty body = true) :
    GetVM vmID (.resp 400 body) bs
      = .ok (some
          { vmId := vmID
          , machineConfig := [("vcpu_count", .jInt 4), ("mem_size_mib", .jInt 1024)]
          , bootSource := some [], drives := [], networkInterfaces := [] }) := by
  simp [GetVM, h]

/-- C10, witness at a concrete non-empty error body. -/
theorem GetVM_badrequest_fabricated_witness :
    GetVM "vm-9" (.resp 400 (.text "Invalid request method")) .connFail
      = .ok (some
          { vmId := "vm-9"
          , machineConfig := [("vcpu_count", .jInt 4), ("mem_size_mib", .jInt 1024)]
          , bootSource := some [], drives := [], networkInterfaces := [] }) :=
  GetVM_badrequest_fabricated "vm-9" (.text "Invalid request method") .connFail rfl
